import Mathlib

/-!
Shallow embedding of the penalty-shot mini-game in `src/src/App.tsx`.

The component state (React `useState` hooks plus the `powerIntervalRef`
interval and the two `setTimeout` callbacks scheduled on release) is
modelled as one record.  Timer bookkeeping is explicit:

* `intervalLive` — whether the interval currently stored in
  `powerIntervalRef.current` is still running.  `handleTouchStart`
  overwrites the ref with a fresh interval; if the previous one was still
  live it is leaked (never cleared), counted by `leakedIntervals`.
  `handleTouchEnd` clears only the interval held in the ref.
* `pendingOverlay` / `pendingReset` — the number of scheduled 1000 ms
  overlay-show callbacks and 2000 ms round-reset callbacks.  The source
  never cancels these, so they stay pending until fired.

Randomness (`Math.random()`) is passed in explicitly: each draw is a
rational `r` with `0 ≤ r < 1`.  A release consumes one draw for the
goalkeeper choice and one for the ball jitter, exactly as the source
calls `Math.random()` once in `animateGoalkeeper` and once in
`animateBall`.

One closure subtlety of the source is kept faithfully: `animateBall`
reads the `goalkeeperPosition` state variable captured at render time,
i.e. the value *before* the `setGoalkeeperPosition` call in
`animateGoalkeeper` takes effect, so the save-ball anchor is computed
from the pre-release goalkeeper position, not the newly chosen dive.
-/

/-- Phase of a round, `type GameState` in the source (the `result`
constructor exists in the source type but is never assigned). -/
inductive GameState
  | waiting
  | charging
  | shooting
  | result
deriving DecidableEq, Repr

/-- Non-null shot results; the source's `ShotResult` is this or `null`,
modelled as `Option ShotResult` in the state. -/
inductive ShotResult
  | goal
  | save
  | miss
deriving DecidableEq, Repr

/-- The goalkeeper slots, strings `'left' | 'center' | 'right'` in the
source. -/
inductive GKPos
  | left
  | center
  | right
deriving DecidableEq, Repr

/-- The full component state of `App`, including explicit timer
bookkeeping (see the module docstring). -/
structure AppState where
  gameState : GameState
  power : ℕ
  score : ℕ
  attempts : ℕ
  shotResult : Option ShotResult
  goalkeeperPosition : GKPos
  ballPosition : ℚ × ℚ
  showResult : Bool
  intervalLive : Bool
  leakedIntervals : ℕ
  pendingOverlay : ℕ
  pendingReset : ℕ
deriving DecidableEq, Repr

/-- `const perfectZoneStart = 70`. -/
def perfectZoneStart : ℕ := 70

/-- `const perfectZoneEnd = 85`. -/
def perfectZoneEnd : ℕ := 85

/-- The period of the charging interval, `setInterval(..., 50)`. -/
def chargeIntervalMs : ℕ := 50

/-- Initial state: the `useState` initial values; no timers scheduled. -/
def initState : AppState :=
  { gameState := .waiting
    power := 0
    score := 0
    attempts := 0
    shotResult := none
    goalkeeperPosition := .center
    ballPosition := (50, 85)
    showResult := false
    intervalLive := false
    leakedIntervals := 0
    pendingOverlay := 0
    pendingReset := 0 }

/-- `calculateShotOutcome` from the source. -/
def calculateShotOutcome (shotPower : ℕ) : ShotResult :=
  if perfectZoneStart ≤ shotPower ∧ shotPower ≤ perfectZoneEnd then .goal
  else if shotPower < perfectZoneStart then .save
  else .miss

/-- The goalkeeper x-anchor used by `animateBall`:
`goalkeeperPosition === 'left' ? 25 : goalkeeperPosition === 'right' ? 75 : 50`. -/
def gkAnchor : GKPos → ℚ
  | .left => 25
  | .right => 75
  | .center => 50

/-- `animateGoalkeeper`, with the `Math.random()` draw `r` made explicit:
`positions[Math.floor(Math.random() * positions.length)]` where
`positions = ['left', 'center', 'right']`. -/
def animateGoalkeeper (r : ℚ) : GKPos :=
  if ⌊r * 3⌋ = 0 then .left
  else if ⌊r * 3⌋ = 1 then .center
  else .right

/-- `animateBall`, with the `Math.random()` draw `r` made explicit.
`gkPos` is the `goalkeeperPosition` state variable captured by the
closure: the value before this release's `setGoalkeeperPosition`
applies.  The source's `shotPower` parameter is unused in its body. -/
def animateBall (result : ShotResult) (_shotPower : ℕ) (gkPos : GKPos) (r : ℚ) : ℚ × ℚ :=
  match result with
  | .goal => (50 + (r - 1/2) * 30, 40)
  | .save => (gkAnchor gkPos + (r - 1/2) * 10, 45)
  | .miss => (50 + (r - 1/2) * 40, 10)

/-- `handleTouchStart`: a no-op unless `waiting`; otherwise enter
`charging`, zero the power, clear the result and overlay, and store a
fresh interval in `powerIntervalRef.current` (leaking any interval that
was still live in the ref). -/
def handleTouchStart (s : AppState) : AppState :=
  if s.gameState ≠ .waiting then s
  else
    { s with
      gameState := .charging
      power := 0
      shotResult := none
      showResult := false
      intervalLive := true
      leakedIntervals := s.leakedIntervals + (if s.intervalLive then 1 else 0) }

/-- The body of the interval callback's functional update:
`prev => prev >= 100 ? 100 : prev + 2`. -/
def tickUpdate (prev : ℕ) : ℕ :=
  if 100 ≤ prev then 100 else prev + 2

/-- One firing of a charging-interval callback; possible whenever the
ref's interval or a leaked interval is still live. -/
def tick (s : AppState) : AppState :=
  if s.intervalLive ∨ 0 < s.leakedIntervals then
    { s with power := tickUpdate s.power }
  else s

/-- `handleTouchEnd`: a no-op unless `charging`; otherwise clear the
ref's interval, enter `shooting`, resolve and store the outcome, choose
the goalkeeper dive (draw `rgk`), set the ball target (draw `rball`,
using the pre-release goalkeeper position as anchor), bump the score
counters, and schedule the 1000 ms overlay-show callback. -/
def handleTouchEnd (rgk rball : ℚ) (s : AppState) : AppState :=
  if s.gameState ≠ .charging then s
  else
    let result := calculateShotOutcome s.power
    { s with
      intervalLive := false
      gameState := .shooting
      shotResult := some result
      goalkeeperPosition := animateGoalkeeper rgk
      ballPosition := animateBall result s.power s.goalkeeperPosition rball
      attempts := s.attempts + 1
      score := s.score + (if result = .goal then 1 else 0)
      pendingOverlay := s.pendingOverlay + 1 }

/-- The auto-shoot `useEffect`: `if (power >= 100 && gameState === 'charging')
handleTouchEnd()`. -/
def autoShoot (rgk rball : ℚ) (s : AppState) : AppState :=
  if 100 ≤ s.power ∧ s.gameState = .charging then handleTouchEnd rgk rball s
  else s

/-- `resetGame`: back to `waiting` with the round fields at their
defaults.  Note it clears no timer. -/
def resetGame (s : AppState) : AppState :=
  { s with
    gameState := .waiting
    power := 0
    shotResult := none
    showResult := false
    ballPosition := (50, 85)
    goalkeeperPosition := .center }

/-- `resetScore`: zero both counters, then `resetGame()`. -/
def resetScore (s : AppState) : AppState :=
  resetGame { s with score := 0, attempts := 0 }

/-- Firing of the 1000 ms overlay-show callback: unconditionally
`setShowResult(true)` and schedule the nested 2000 ms round-reset
callback.  The source has no phase guard here. -/
def fireOverlay (s : AppState) : AppState :=
  if 0 < s.pendingOverlay then
    { s with
      pendingOverlay := s.pendingOverlay - 1
      showResult := true
      pendingReset := s.pendingReset + 1 }
  else s

/-- Firing of the 2000 ms round-reset callback: unconditionally
`resetGame()`.  The source has no phase guard here either. -/
def fireReset (s : AppState) : AppState :=
  if 0 < s.pendingReset then resetGame { s with pendingReset := s.pendingReset - 1 }
  else s

/-- The events that can occur: the two inputs, the auto-shoot effect,
and the three kinds of timer callback firings.  Release-like events
carry the two random draws they would consume. -/
inductive Ev
  | press
  | release (rgk rball : ℚ)
  | auto (rgk rball : ℚ)
  | tick
  | overlayFire
  | resetFire
  | scoreReset

/-- Effect of one event on the state. -/
def step : Ev → AppState → AppState
  | .press, s => handleTouchStart s
  | .release rgk rball, s => handleTouchEnd rgk rball s
  | .auto rgk rball, s => autoShoot rgk rball s
  | .tick, s => tick s
  | .overlayFire, s => fireOverlay s
  | .resetFire, s => fireReset s
  | .scoreReset, s => resetScore s

/-- Run a sequence of events. -/
def exec (evs : List Ev) (s : AppState) : AppState :=
  evs.foldl (fun t e => step e t) s

/-- A state reachable from the initial state by some event sequence. -/
def reachable (s : AppState) : Prop :=
  ∃ evs : List Ev, exec evs initState = s

/-- The inductive invariant: the score never exceeds the attempt count,
power stays an even number at most 100, and in `waiting` or `charging`
the goalkeeper and ball sit at their defaults. -/
def StateInv (s : AppState) : Prop :=
  s.score ≤ s.attempts ∧ s.power ≤ 100 ∧ s.power % 2 = 0 ∧
  ((s.gameState = .waiting ∨ s.gameState = .charging) →
    s.goalkeeperPosition = .center ∧ s.ballPosition = (50, 85))

lemma exec_cons (e : Ev) (evs : List Ev) (s : AppState) :
    exec (e :: evs) s = exec evs (step e s) := rfl

lemma stateInv_init : StateInv initState := by
  unfold StateInv
  exact ⟨Nat.le_refl 0, by decide, by decide, fun _ => ⟨rfl, rfl⟩⟩

lemma stateInv_handleTouchStart (s : AppState) (h : StateInv s) :
    StateInv (handleTouchStart s) := by
  unfold StateInv at h ⊢
  unfold handleTouchStart
  split
  · exact h
  · rename_i hw
    simp only [ne_eq, not_not] at hw
    obtain ⟨h1, h2, h3, h4⟩ := h
    exact ⟨h1, Nat.zero_le 100, rfl, fun _ => h4 (Or.inl hw)⟩

lemma stateInv_handleTouchEnd (rgk rball : ℚ) (s : AppState) (h : StateInv s) :
    StateInv (handleTouchEnd rgk rball s) := by
  unfold StateInv at h ⊢
  unfold handleTouchEnd
  split
  · exact h
  · obtain ⟨h1, h2, h3, _⟩ := h
    refine ⟨?_, h2, h3, ?_⟩
    · dsimp only
      split <;> omega
    · dsimp only
      rintro (hc | hc) <;> cases hc

lemma stateInv_tick (s : AppState) (h : StateInv s) : StateInv (tick s) := by
  unfold StateInv at h ⊢
  unfold tick tickUpdate
  split
  · obtain ⟨h1, h2, h3, h4⟩ := h
    refine ⟨h1, ?_, ?_, h4⟩
    · dsimp only
      split <;> omega
    · dsimp only
      split <;> omega
  · exact h

lemma stateInv_resetGame (s : AppState) (h : StateInv s) : StateInv (resetGame s) := by
  unfold StateInv at h ⊢
  unfold resetGame
  exact ⟨h.1, Nat.zero_le 100, rfl, fun _ => ⟨rfl, rfl⟩⟩

lemma stateInv_resetScore (s : AppState) (h : StateInv s) : StateInv (resetScore s) := by
  unfold resetScore
  apply stateInv_resetGame
  unfold StateInv at h ⊢
  exact ⟨Nat.le_refl 0, h.2.1, h.2.2.1, h.2.2.2⟩

lemma stateInv_fireOverlay (s : AppState) (h : StateInv s) : StateInv (fireOverlay s) := by
  unfold StateInv at h ⊢
  unfold fireOverlay
  split
  · exact ⟨h.1, h.2.1, h.2.2.1, h.2.2.2⟩
  · exact h

lemma stateInv_fireReset (s : AppState) (h : StateInv s) : StateInv (fireReset s) := by
  unfold fireReset
  split
  · apply stateInv_resetGame
    unfold StateInv at h ⊢
    exact ⟨h.1, h.2.1, h.2.2.1, h.2.2.2⟩
  · exact h

lemma stateInv_autoShoot (rgk rball : ℚ) (s : AppState) (h : StateInv s) :
    StateInv (autoShoot rgk rball s) := by
  unfold autoShoot
  split
  · exact stateInv_handleTouchEnd rgk rball s h
  · exact h

lemma stateInv_step (e : Ev) (s : AppState) (h : StateInv s) : StateInv (step e s) := by
  cases e with
  | press => exact stateInv_handleTouchStart s h
  | release rgk rball => exact stateInv_handleTouchEnd rgk rball s h
  | auto rgk rball => exact stateInv_autoShoot rgk rball s h
  | tick => exact stateInv_tick s h
  | overlayFire => exact stateInv_fireOverlay s h
  | resetFire => exact stateInv_fireReset s h
  | scoreReset => exact stateInv_resetScore s h

lemma stateInv_exec (evs : List Ev) (s : AppState) (h : StateInv s) :
    StateInv (exec evs s) := by
  induction evs generalizing s with
  | nil => exact h
  | cons e evs ih =>
    rw [exec_cons]
    exact ih (step e s) (stateInv_step e s h)

lemma reachable_stateInv (s : AppState) (h : reachable s) : StateInv s := by
  obtain ⟨evs, rfl⟩ := h
  exact stateInv_exec evs initState stateInv_init

/-- C1: the outcome resolver is a pure function of power alone: for every
power `p`, if `70 ≤ p ≤ 85` it returns `goal`, if `p < 70` it returns
`save`, and if `p > 85` it returns `miss`; in particular it yields `goal`
at 70 and 85, `save` at 69 and `miss` at 86. -/
theorem c1_outcome_resolver (p : ℕ) :
    (70 ≤ p ∧ p ≤ 85 → calculateShotOutcome p = ShotResult.goal) ∧
    (p < 70 → calculateShotOutcome p = ShotResult.save) ∧
    (85 < p → calculateShotOutcome p = ShotResult.miss) ∧
    calculateShotOutcome 70 = ShotResult.goal ∧
    calculateShotOutcome 85 = ShotResult.goal ∧
    calculateShotOutcome 69 = ShotResult.save ∧
    calculateShotOutcome 86 = ShotResult.miss := by
  unfold calculateShotOutcome perfectZoneStart perfectZoneEnd
  refine ⟨fun h => ?_, fun h => ?_, fun h => ?_, by decide, by decide, by decide, by decide⟩
  · rw [if_pos h]
  · rw [if_neg (by omega), if_pos h]
  · rw [if_neg (by omega), if_neg (by omega)]

/-- Witness for C1 at power 75, inside the perfect zone. -/
theorem c1_outcome_resolver_witness : calculateShotOutcome 75 = ShotResult.goal :=
  (c1_outcome_resolver 75).1 (by decide)

/-- C7: the explicit score reset zeroes both counters, forces the machine
back to `waiting` with all round fields at their defaults, from any state
whatsoever, and is idempotent. -/
theorem c7_resetScore_idempotent (s : AppState) :
    resetScore (resetScore s) = resetScore s ∧
    (resetScore s).score = 0 ∧
    (resetScore s).attempts = 0 ∧
    (resetScore s).gameState = GameState.waiting ∧
    (resetScore s).power = 0 ∧
    (resetScore s).shotResult = none ∧
    (resetScore s).showResult = false ∧
    (resetScore s).ballPosition = (50, 85) ∧
    (resetScore s).goalkeeperPosition = GKPos.center := by
  unfold resetScore resetGame
  exact ⟨rfl, rfl, rfl, rfl, rfl, rfl, rfl, rfl, rfl⟩

/-- C8: an out-of-phase input leaves the whole state unchanged: a press
start outside `waiting` and a press end outside `charging` are no-ops. -/
theorem c8_out_of_phase_noop (s : AppState) (rgk rball : ℚ) :
    (s.gameState ≠ GameState.waiting → handleTouchStart s = s) ∧
    (s.gameState ≠ GameState.charging → handleTouchEnd rgk rball s = s) := by
  constructor
  · intro h
    unfold handleTouchStart
    rw [if_pos h]
  · intro h
    unfold handleTouchEnd
    rw [if_pos h]

/-- Witness for C8: both inputs are no-ops in the `shooting` phase. -/
theorem c8_out_of_phase_noop_witness :
    handleTouchStart { initState with gameState := GameState.shooting } =
      { initState with gameState := GameState.shooting } ∧
    handleTouchEnd 0 0 { initState with gameState := GameState.shooting } =
      { initState with gameState := GameState.shooting } :=
  ⟨(c8_out_of_phase_noop { initState with gameState := GameState.shooting } 0 0).1 (by decide),
   (c8_out_of_phase_noop { initState with gameState := GameState.shooting } 0 0).2 (by decide)⟩

/-- C2: whenever power reaches or exceeds 100 while still `charging`, the
auto-shoot effect performs exactly the explicit release sequence; in every
reachable such state the power is exactly 100, the stored outcome is
`calculateShotOutcome 100 = miss`, attempts grows by 1 and the score is
unchanged. -/
theorem c2_auto_release (s : AppState) (rgk rball : ℚ)
    (hr : reachable s) (hs : s.gameState = GameState.charging) (hp : 100 ≤ s.power) :
    s.power = 100 ∧
    autoShoot rgk rball s = handleTouchEnd rgk rball s ∧
    (autoShoot rgk rball s).shotResult = some (calculateShotOutcome 100) ∧
    calculateShotOutcome 100 = ShotResult.miss ∧
    (autoShoot rgk rball s).attempts = s.attempts + 1 ∧
    (autoShoot rgk rball s).score = s.score := by
  have hinv := reachable_stateInv s hr
  have hp100 : s.power = 100 := le_antisymm hinv.2.1 hp
  have hauto : autoShoot rgk rball s = handleTouchEnd rgk rball s := by
    unfold autoShoot
    rw [if_pos ⟨hp, hs⟩]
  have hmiss : calculateShotOutcome 100 = ShotResult.miss := by decide
  refine ⟨hp100, hauto, ?_, hmiss, ?_, ?_⟩
  · rw [hauto]
    unfold handleTouchEnd
    rw [if_neg (by simp [hs])]
    dsimp only
    rw [hp100]
  · rw [hauto]
    unfold handleTouchEnd
    rw [if_neg (by simp [hs])]
  · rw [hauto]
    unfold handleTouchEnd
    rw [if_neg (by simp [hs])]
    dsimp only
    rw [hp100, hmiss]
    simp

set_option maxRecDepth 8000 in
/-- Witness for C2: after a press and 50 ticks the state is reachable,
charging, at power 100, and the auto-shoot bumps attempts by 1. -/
theorem c2_auto_release_witness :
    (autoShoot 0 0 (exec (Ev.press :: List.replicate 50 Ev.tick) initState)).attempts =
      (exec (Ev.press :: List.replicate 50 Ev.tick) initState).attempts + 1 :=
  (c2_auto_release (exec (Ev.press :: List.replicate 50 Ev.tick) initState) 0 0
    ⟨Ev.press :: List.replicate 50 Ev.tick, rfl⟩ (by decide) (by decide)).2.2.2.2.1

/-- C5: after any event sequence from the initial state the score never
exceeds the attempt count, and a release taken from `charging` bumps
attempts by exactly 1 and the score by exactly 1 precisely when the
resolved outcome is a goal. -/
theorem c5_score_invariant (evs : List Ev) (s : AppState) (rgk rball : ℚ)
    (hs : s.gameState = GameState.charging) :
    (exec evs initState).score ≤ (exec evs initState).attempts ∧
    (handleTouchEnd rgk rball s).attempts = s.attempts + 1 ∧
    ((handleTouchEnd rgk rball s).score = s.score + 1 ↔
      calculateShotOutcome s.power = ShotResult.goal) ∧
    (calculateShotOutcome s.power ≠ ShotResult.goal →
      (handleTouchEnd rgk rball s).score = s.score) := by
  refine ⟨(stateInv_exec evs initState stateInv_init).1, ?_, ?_, ?_⟩
  · unfold handleTouchEnd
    rw [if_neg (by simp [hs])]
  · unfold handleTouchEnd
    rw [if_neg (by simp [hs])]
    dsimp only
    by_cases hg : calculateShotOutcome s.power = ShotResult.goal
    · simp [hg]
    · simp [hg]
  · intro hg
    unfold handleTouchEnd
    rw [if_neg (by simp [hs])]
    dsimp only
    simp [hg]

/-- Witness for C5: a release at power 0 from charging bumps attempts from
0 to 1. -/
theorem c5_score_invariant_witness :
    (handleTouchEnd 0 0 { initState with gameState := GameState.charging }).attempts =
      ({ initState with gameState := GameState.charging } : AppState).attempts + 1 :=
  (c5_score_invariant [] { initState with gameState := GameState.charging } 0 0 rfl).2.1

/-- C9: the charging interval has a 50 ms period and each tick maps power
`p` to `p + 2` when `p < 100` and to `100` otherwise; power never exceeds
100 in any reachable state; and a release before any tick occurs happens
at power 0 and resolves to `save`. -/
theorem c9_charging_tick (rgk rball : ℚ) :
    chargeIntervalMs = 50 ∧
    (∀ p : ℕ, p < 100 → tickUpdate p = p + 2) ∧
    (∀ p : ℕ, 100 ≤ p → tickUpdate p = 100) ∧
    (∀ evs : List Ev, (exec evs initState).power ≤ 100) ∧
    (handleTouchStart initState).power = 0 ∧
    (handleTouchEnd rgk rball (handleTouchStart initState)).power = 0 ∧
    (handleTouchEnd rgk rball (handleTouchStart initState)).shotResult =
      some ShotResult.save := by
  refine ⟨rfl, ?_, ?_, ?_, rfl, rfl, rfl⟩
  · intro p hp
    unfold tickUpdate
    rw [if_neg (by omega)]
  · intro p hp
    unfold tickUpdate
    rw [if_pos hp]
  · intro evs
    exact (stateInv_exec evs initState stateInv_init).2.1

/-- Witness for C9: a tick at power 98 lands exactly on 100. -/
theorem c9_charging_tick_witness : tickUpdate 98 = 98 + 2 :=
  (c9_charging_tick 0 0).2.1 98 (by decide)

/-- C10: in every reachable state whose phase is `waiting` or `charging`
the goalkeeper is at `center` and the ball at `(50, 85)`; the initial
state satisfies this, a press start never moves goalkeeper or ball, and
every reset into `waiting` restores the defaults. -/
theorem c10_default_positions (evs : List Ev) (s : AppState)
    (h : (exec evs initState).gameState = GameState.waiting ∨
         (exec evs initState).gameState = GameState.charging) :
    (exec evs initState).goalkeeperPosition = GKPos.center ∧
    (exec evs initState).ballPosition = (50, 85) ∧
    initState.goalkeeperPosition = GKPos.center ∧
    initState.ballPosition = (50, 85) ∧
    (handleTouchStart s).goalkeeperPosition = s.goalkeeperPosition ∧
    (handleTouchStart s).ballPosition = s.ballPosition ∧
    (resetGame s).goalkeeperPosition = GKPos.center ∧
    (resetGame s).ballPosition = (50, 85) := by
  have hd := (stateInv_exec evs initState stateInv_init).2.2.2 h
  refine ⟨hd.1, hd.2, rfl, rfl, ?_, ?_, rfl, rfl⟩
  · unfold handleTouchStart
    split <;> rfl
  · unfold handleTouchStart
    split <;> rfl

/-- Witness for C10 at the initial state itself. -/
theorem c10_default_positions_witness :
    (exec [] initState).goalkeeperPosition = GKPos.center :=
  (c10_default_positions [] initState (Or.inl rfl)).1

/-- C3 fails on the code: `resetScore` never clears the charging
interval.  After press → one tick → score reset the phase is `waiting`
with power 0 yet the interval is still live, and the very next tick
raises power to 2 although no new press occurred. -/
theorem c3_stale_interval_bug :
    (exec [Ev.press, Ev.tick, Ev.scoreReset] initState).gameState = GameState.waiting ∧
    (exec [Ev.press, Ev.tick, Ev.scoreReset] initState).power = 0 ∧
    (exec [Ev.press, Ev.tick, Ev.scoreReset] initState).intervalLive = true ∧
    (exec [Ev.press, Ev.tick, Ev.scoreReset, Ev.tick] initState).gameState =
      GameState.waiting ∧
    (exec [Ev.press, Ev.tick, Ev.scoreReset, Ev.tick] initState).power = 2 ∧
    (exec [Ev.press, Ev.tick, Ev.scoreReset, Ev.tick, Ev.press] initState).leakedIntervals
      = 1 := by
  refine ⟨by decide, by decide, by decide, by decide, by decide, by decide⟩

/-- C4 fails on the code: the two post-release callbacks carry no phase
guard.  After press → release → score reset the machine is back in
`waiting` with the overlay hidden, yet the still-pending overlay-show
callback sets the overlay visible (so it is not a no-op), and after a new
press enters `charging` the still-pending round-reset callback forces the
round back to `waiting` mid-charge. -/
theorem c4_unguarded_callbacks_bug :
    (exec [Ev.press, Ev.release 0 0, Ev.scoreReset] initState).gameState =
      GameState.waiting ∧
    (exec [Ev.press, Ev.release 0 0, Ev.scoreReset] initState).showResult = false ∧
    (exec [Ev.press, Ev.release 0 0, Ev.scoreReset] initState).pendingOverlay = 1 ∧
    (exec [Ev.press, Ev.release 0 0, Ev.scoreReset, Ev.overlayFire] initState).showResult
      = true ∧
    (exec [Ev.press, Ev.release 0 0, Ev.scoreReset, Ev.overlayFire] initState).pendingReset
      = 1 ∧
    (exec [Ev.press, Ev.release 0 0, Ev.scoreReset, Ev.overlayFire, Ev.press] initState).gameState
      = GameState.charging ∧
    (exec [Ev.press, Ev.release 0 0, Ev.scoreReset, Ev.overlayFire, Ev.press, Ev.resetFire] initState).gameState
      = GameState.waiting := by
  refine ⟨by decide, by decide, by decide, by decide, by decide, by decide, by decide⟩

/-- C6 counterexample: in the round press → release with goalkeeper draw
0 (dive `left`, anchor 25) and jitter draw 1/2, the outcome is `save` but
the ball lands at x = 50, which no jitter in [-5, 5] can reach from the
chosen keeper's anchor 25: the save-ball anchor is not the newly chosen
goalkeeper position. -/
theorem c6_ball_anchor_counterexample :
    (handleTouchEnd 0 (1/2) (handleTouchStart initState)).shotResult =
      some ShotResult.save ∧
    (handleTouchEnd 0 (1/2) (handleTouchStart initState)).goalkeeperPosition =
      GKPos.left ∧
    (handleTouchEnd 0 (1/2) (handleTouchStart initState)).ballPosition = (50, 45) ∧
    gkAnchor GKPos.left + 5 < (50 : ℚ) := by
  refine ⟨rfl, ?_, ?_, ?_⟩
  · norm_num [handleTouchEnd, handleTouchStart, initState, animateGoalkeeper]
  · norm_num [handleTouchEnd, handleTouchStart, initState, animateBall,
      animateGoalkeeper, calculateShotOutcome, gkAnchor, perfectZoneStart,
      perfectZoneEnd]
  · norm_num [gkAnchor]

/-- C6 amended: at a release from any reachable charging state, the
goalkeeper dive is a function of its own draw alone (the three slots on
equal thirds of [0,1), independent of the outcome); the ball target is
x = 50 + uniform(-15,15), y = 40 for a goal and x = 50 + uniform(-20,20),
y = 10 for a miss; for a save the x-anchor is the pre-release goalkeeper
position — always `center`, anchor 50, in reachable states — plus
uniform(-5,5), with y = 45, not the newly chosen dive's anchor. -/
theorem c6_release_randomization (s : AppState) (rgk rball : ℚ)
    (hr : reachable s) (hs : s.gameState = GameState.charging)
    (hgk0 : 0 ≤ rgk) (hgk1 : rgk < 1) (hb0 : 0 ≤ rball) (hb1 : rball < 1) :
    (handleTouchEnd rgk rball s).goalkeeperPosition = animateGoalkeeper rgk ∧
    (rgk < 1/3 → animateGoalkeeper rgk = GKPos.left) ∧
    (1/3 ≤ rgk → rgk < 2/3 → animateGoalkeeper rgk = GKPos.center) ∧
    (2/3 ≤ rgk → animateGoalkeeper rgk = GKPos.right) ∧
    s.goalkeeperPosition = GKPos.center ∧
    (calculateShotOutcome s.power = ShotResult.goal →
      (handleTouchEnd rgk rball s).ballPosition = (50 + (rball - 1/2) * 30, 40) ∧
      -15 ≤ (rball - 1/2) * 30 ∧ (rball - 1/2) * 30 < 15) ∧
    (calculateShotOutcome s.power = ShotResult.save →
      (handleTouchEnd rgk rball s).ballPosition =
        (gkAnchor s.goalkeeperPosition + (rball - 1/2) * 10, 45) ∧
      (handleTouchEnd rgk rball s).ballPosition.1 = 50 + (rball - 1/2) * 10 ∧
      -5 ≤ (rball - 1/2) * 10 ∧ (rball - 1/2) * 10 < 5) ∧
    (calculateShotOutcome s.power = ShotResult.miss →
      (handleTouchEnd rgk rball s).ballPosition = (50 + (rball - 1/2) * 40, 10) ∧
      -20 ≤ (rball - 1/2) * 40 ∧ (rball - 1/2) * 40 < 20) := by
  have hcen : s.goalkeeperPosition = GKPos.center :=
    ((reachable_stateInv s hr).2.2.2 (Or.inr hs)).1
  have hgk : (handleTouchEnd rgk rball s).goalkeeperPosition = animateGoalkeeper rgk := by
    unfold handleTouchEnd
    rw [if_neg (by simp [hs])]
  refine ⟨hgk, ?_, ?_, ?_, hcen, ?_, ?_, ?_⟩
  · intro h3
    have hf : ⌊rgk * 3⌋ = 0 := by
      rw [Int.floor_eq_iff]
      push_cast
      constructor <;> linarith
    unfold animateGoalkeeper
    rw [if_pos hf]
  · intro h3 h3'
    have hf : ⌊rgk * 3⌋ = 1 := by
      rw [Int.floor_eq_iff]
      push_cast
      constructor <;> linarith
    unfold animateGoalkeeper
    rw [if_neg (by omega), if_pos hf]
  · intro h3
    have hf : ⌊rgk * 3⌋ = 2 := by
      rw [Int.floor_eq_iff]
      push_cast
      constructor <;> linarith
    unfold animateGoalkeeper
    rw [if_neg (by omega), if_neg (by omega)]
  · intro hres
    unfold handleTouchEnd
    rw [if_neg (by simp [hs])]
    dsimp only
    rw [hres]
    unfold animateBall
    exact ⟨rfl, by linarith, by linarith⟩
  · intro hres
    unfold handleTouchEnd
    rw [if_neg (by simp [hs])]
    dsimp only
    rw [hres]
    unfold animateBall
    rw [hcen]
    exact ⟨rfl, by norm_num [gkAnchor], by linarith, by linarith⟩
  · intro hres
    unfold handleTouchEnd
    rw [if_neg (by simp [hs])]
    dsimp only
    rw [hres]
    unfold animateBall
    exact ⟨rfl, by linarith, by linarith⟩

/-- Witness for the amended C6, at the charging state after one press
with draws 0 and 1/2. -/
theorem c6_release_randomization_witness :
    (handleTouchEnd 0 (1/2) (exec [Ev.press] initState)).goalkeeperPosition =
      animateGoalkeeper 0 :=
  (c6_release_randomization (exec [Ev.press] initState) 0 (1/2)
    ⟨[Ev.press], rfl⟩ (by decide) (by norm_num) (by norm_num) (by norm_num)
    (by norm_num)).1
